import Mathlib

/-!
Verification development for the gemini-api-wrapper repository.

The definitions below are a shallow embedding of the JavaScript source:
`src/services/geminiService.js` (the `GeminiService` class) and the Elysia
route handlers in `src/controllers/*.js`.  External effects (HTTP fetch of
remote media, calls to the generative-model SDK, filesystem writes) are made
explicit: each embedded operation takes an `Env` describing the outcome of
the single fetch / model call it may perform, and returns the list of
external calls it issued, so that dispatch order and "no network call was
made" properties are provable.

JavaScript conventions are modelled explicitly:
- `undefined`/`null` fields become `Option`;
- JS truthiness on strings (`''` is falsy) becomes `jsTruthy` / `jsOr`;
- `Buffer`/`ArrayBuffer` byte payloads become `List Nat`, with a concrete
  base64 codec standing in for `Buffer.toString('base64')` and
  `Buffer.from(s, 'base64')`;
- a method defined twice in a JS `class` body is installed once, with the
  later definition winning; the embeddings of `generateChatResponse` and
  `generateImage` therefore follow the second (non-streaming) definitions
  in the source, which are the ones the program executes.
-/

namespace GeminiWrapper

/-- JS truthiness of a possibly-absent string: `undefined`, `null` and `''`
are falsy, every other string is truthy. -/
def jsTruthy : Option String → Bool
  | none => false
  | some s => s != ""

/-- JS `a || b` for a possibly-absent string `a` with string default `b`. -/
def jsOr (o : Option String) (d : String) : String :=
  match o with
  | none => d
  | some s => if s = "" then d else s

/-- JS `a || null` for a possibly-absent string: empty strings collapse to
null, as in `sessionId: sessionId || null`. -/
def jsOrNull : Option String → Option String
  | none => none
  | some s => if s = "" then none else some s

/-- The base64 alphabet, used to model `Buffer.toString('base64')`. -/
def b64Alphabet : List Char :=
  "ABCDEFGHIJKLMNOPQRSTUVWXYZabcdefghijklmnopqrstuvwxyz0123456789+/".toList

/-- Character for a 6-bit group. -/
def b64Char (n : Nat) : Char := b64Alphabet.getD n 'A'

/-- RFC 4648 base64 of a byte list, three bytes at a time with `=` padding;
models Node's `Buffer.from(bytes).toString('base64')`. -/
def base64Chunks : List Nat → List Char
  | b1 :: b2 :: b3 :: rest =>
    let n := (b1 % 256) * 65536 + (b2 % 256) * 256 + (b3 % 256)
    b64Char (n / 262144) :: b64Char (n / 4096 % 64) :: b64Char (n / 64 % 64) ::
      b64Char (n % 64) :: base64Chunks rest
  | [b1, b2] =>
    let n := (b1 % 256) * 65536 + (b2 % 256) * 256
    [b64Char (n / 262144), b64Char (n / 4096 % 64), b64Char (n / 64 % 64), '=']
  | [b1] =>
    let n := (b1 % 256) * 65536
    [b64Char (n / 262144), b64Char (n / 4096 % 64), '=', '=']
  | [] => []

/-- String form of the base64 encoding. -/
def base64Encode (bytes : List Nat) : String := String.mk (base64Chunks bytes)

/-- 6-bit value of a base64 character (padding and foreign characters give
junk that the caller truncates away, as in a permissive decoder). -/
def b64Value (c : Char) : Nat := b64Alphabet.indexOf c

/-- Base64 decoding of a character list, four characters at a time; models
Node's `Buffer.from(s, 'base64')`. -/
def base64DecodeChars : List Char → List Nat
  | c1 :: c2 :: c3 :: c4 :: rest =>
    let n := b64Value c1 * 262144 + b64Value c2 * 4096 + b64Value c3 * 64 + b64Value c4
    if c3 = '=' then [n / 65536]
    else if c4 = '=' then [n / 65536, n / 256 % 256]
    else n / 65536 :: n / 256 % 256 :: n % 256 :: base64DecodeChars rest
  | _ => []

/-- String form of base64 decoding. -/
def base64Decode (s : String) : List Nat := base64DecodeChars s.toList

/-- Resolved media: transport-encoded bytes plus a MIME type, the
`{data, mimeType}` pairs built throughout `geminiService.js`. -/
structure InlineMedia where
  data : String
  mimeType : String
deriving DecidableEq, Repr

/-- A media reference as the service methods receive it: either a URL string
or an uploaded `File` object (its bytes plus its declared `type`). -/
inductive FileInput where
  | url (u : String)
  | blob (bytes : List Nat) (declaredType : String)
deriving DecidableEq, Repr

/-- JS truthiness of the `file` argument: an empty URL string is falsy, a
`File` object is always truthy. -/
def fileInputTruthy : FileInput → Bool
  | .url u => u != ""
  | .blob _ _ => true

/-- Outcome of the one `fetch(fileUrl)` a request may perform: either a
response (with `ok` flag, `statusText`, body bytes and optional
`content-type` header) or a thrown transport error. -/
inductive FetchResult where
  | response (ok : Bool) (statusText : String) (bytes : List Nat)
      (contentType : Option String)
  | thrown (message : String)
deriving DecidableEq, Repr

/-- Embeds `GeminiService.fetchFileFromUrl` (geminiService.js lines 40-58):
a non-ok response throws `Failed to fetch file: <statusText>`, any throw is
re-wrapped by the surrounding catch as `Error fetching file from URL: <msg>`;
on success the body is base64-encoded and the MIME type is the content-type
header defaulted to `application/octet-stream` by `||`. -/
def fetchFileFromUrl (res : FetchResult) : Except String InlineMedia :=
  match res with
  | .thrown msg => .error ("Error fetching file from URL: " ++ msg)
  | .response ok statusText bytes contentType =>
    if ok then
      .ok { data := base64Encode bytes,
            mimeType := jsOr contentType "application/octet-stream" }
    else
      .error ("Error fetching file from URL: " ++ ("Failed to fetch file: " ++ statusText))

/-- A request part: `{text: ...}` or `{inlineData: ...}` as assembled into
the `contents` payload. -/
inductive JsPart where
  | text (s : String)
  | inlineData (m : InlineMedia)
deriving DecidableEq, Repr

/-- One role-tagged turn of the assembled `contents` list. -/
structure ContentTurn where
  role : String
  parts : List JsPart
deriving DecidableEq, Repr

/-- The `config` object passed to the SDK: chat requests set only
`thinkingConfig` (budget -1) and `tools` (`googleSearch`), image requests set
only `responseModalities`. -/
structure GenConfig where
  responseModalities : Option (List String)
  thinkingConfig : Option Int
  tools : Option (List String)
deriving DecidableEq, Repr

/-- The argument object of `ai.models.generateContent` /
`generateContentStream`. -/
structure ModelRequest where
  model : String
  config : GenConfig
  contents : List ContentTurn
deriving DecidableEq, Repr

/-- External calls a pipeline step can issue, in issue order: an HTTP fetch
of remote media, a non-streaming or streaming model invocation, or a
filesystem write of generated image bytes. -/
inductive ExternalCall where
  | fetchUrl (url : String)
  | generateContent (req : ModelRequest)
  | generateContentStream (req : ModelRequest)
  | writeFile (path : String) (bytes : List Nat)
deriving DecidableEq, Repr

/-- Whether an external call is a streaming model invocation. -/
def isStreamCall : ExternalCall → Bool
  | .generateContentStream _ => true
  | _ => false

/-- Embeds the `typeof file === 'string'` resolution block that is repeated
verbatim in every service method: a URL is fetched (recording the network
call), a `File` object is read and base64-encoded with its declared type
passed through unchanged. -/
def resolveFileInput (f : FileInput) (fr : FetchResult) :
    Except String InlineMedia × List ExternalCall :=
  match f with
  | .url u => (fetchFileFromUrl fr, [.fetchUrl u])
  | .blob bytes ty => (.ok { data := base64Encode bytes, mimeType := ty }, [])

/-- A part of the model's response: may carry a text delta and/or inline
image data (the source tests `part.inlineData` first, then `part.text`). -/
structure RespPart where
  text : Option String
  inlineData : Option InlineMedia
deriving DecidableEq, Repr

/-- `candidate.content` of the model's response. -/
structure RespContent where
  parts : Option (List RespPart)
deriving DecidableEq, Repr

/-- One candidate of the model's response. -/
structure Candidate where
  content : Option RespContent
deriving DecidableEq, Repr

/-- The non-streaming model response object: optional `candidates` array and
the SDK's aggregate `text` accessor used by the chat path. -/
structure GenerateResponse where
  candidates : Option (List Candidate)
  text : Option String
deriving DecidableEq, Repr

/-- Embeds the guard
`response.candidates && response.candidates[0] && response.candidates[0].content && response.candidates[0].content.parts`:
`none` when any link of the chain is absent (note an empty `candidates`
array passes the first test, being a truthy object, but fails the second;
an empty `parts` array passes the whole guard). -/
def firstCandidateParts (resp : GenerateResponse) : Option (List RespPart) :=
  match resp.candidates with
  | none => none
  | some cands =>
    match cands with
    | [] => none
    | c :: _ =>
      match c.content with
      | none => none
      | some content => content.parts

/-- First part of a response carrying inline image data, if any. -/
def firstInline : List RespPart → Option InlineMedia
  | [] => none
  | p :: rest =>
    match p.inlineData with
    | some d => some d
    | none => firstInline rest

/-- Environment of one request: the outcome of the (at most one) remote
fetch, the model's response, and the `Date.now()` value observed by the
k-th filesystem save within the request. -/
structure Env where
  fetch : FetchResult
  genResponse : GenerateResponse
  times : Nat → Nat

/-- The mutable state of a `GeminiService` instance.  The constructor
creates `this.sessions = new Map()`; no method ever reads or writes it, so
proving it unchanged across every operation is the frame property of
interest. -/
structure ServiceState where
  sessions : List (String × String)
deriving DecidableEq, Repr

/-- A freshly constructed service: empty session registry. -/
def newServiceState : ServiceState := { sessions := [] }

/-- `config.models.chat` from config.js. -/
def chatModelDefault : String := "gemini-2.5-flash"

/-- The image-model default literal repeated in every image-producing
method. -/
def imageModelDefault : String := "gemini-2.5-flash-image-preview"

/-- The `config` object built by every image-producing method:
`responseModalities: ['IMAGE', 'TEXT']`. -/
def imageGenConfig : GenConfig :=
  { responseModalities := some ["IMAGE", "TEXT"], thinkingConfig := none, tools := none }

/-- The parts of the user turn of a chat request: `[{text: message}]`, plus
the inline media pushed after it when a file was resolved. -/
def chatParts (message : String) : Option InlineMedia → List JsPart
  | none => [JsPart.text message]
  | some m => [JsPart.text message, JsPart.inlineData m]

/-- The `contents` array of a chat request (geminiService.js lines 322-335):
a leading `user` turn holding the system prompt when that is truthy,
followed by the user turn. -/
def chatContents (systemPrompt : Option String) (message : String)
    (media : Option InlineMedia) : List ContentTurn :=
  if jsTruthy systemPrompt then
    { role := "user", parts := [JsPart.text (systemPrompt.getD "")] } ::
      [{ role := "user", parts := chatParts message media }]
  else
    [{ role := "user", parts := chatParts message media }]

/-- The `contents` array of every fixed-prompt image-to-image preset: one
user turn with the preset prompt text first and the resolved image second. -/
def presetContents (promptText : String) (media : InlineMedia) : List ContentTurn :=
  [{ role := "user", parts := [JsPart.text promptText, JsPart.inlineData media] }]

/-- The `ChatRequest` shape of geminiService.js: every field except
`message` is optional. -/
structure ChatRequest where
  model : Option String
  sessionId : Option String
  systemPrompt : Option String
  message : String
  file : Option FileInput
  useTools : Option Bool
  useThinking : Option Bool
deriving DecidableEq, Repr

/-- The chat response object of the effective (second, non-streaming)
`generateChatResponse` definition: no `chunks` field. -/
structure ChatResponse where
  text : String
  sessionId : Option String
  usedTools : Bool
  usedThinking : Bool
deriving DecidableEq, Repr

/-- The `config` object assembled by `generateChatResponse`:
`thinkingConfig: {thinkingBudget: -1}` when `useThinking`, a `googleSearch`
tool entry when `useTools`, nothing else. -/
def chatConfigOptions (useTools useThinking : Bool) : GenConfig :=
  { responseModalities := none,
    thinkingConfig := if useThinking then some (-1) else none,
    tools := if useTools then some ["googleSearch"] else none }

/-- Embeds the effective `generateChatResponse` (geminiService.js lines
263-355).  The source declares this method twice; under JS class semantics
the later, non-streaming definition is the one installed on the prototype,
so this embedding dispatches `generateContent` (not the stream variant),
reads the aggregate `response.text`, and echoes `sessionId || null`.  A
resolution failure propagates through the catch as
`Chat generation failed: <msg>` with no model call made. -/
def generateChatResponse (st : ServiceState) (req : ChatRequest) (env : Env) :
    Except String ChatResponse × List ExternalCall × ServiceState :=
  let model := req.model.getD chatModelDefault
  let useTools := req.useTools.getD false
  let useThinking := req.useThinking.getD false
  let configOptions := chatConfigOptions useTools useThinking
  let fileStep : Except String (Option InlineMedia) × List ExternalCall :=
    match req.file with
    | none => (.ok none, [])
    | some f =>
      if fileInputTruthy f then
        match resolveFileInput f env.fetch with
        | (.ok m, calls) => (.ok (some m), calls)
        | (.error e, calls) => (.error e, calls)
      else (.ok none, [])
  match fileStep with
  | (.error e, calls) => (.error ("Chat generation failed: " ++ e), calls, st)
  | (.ok media, calls) =>
    let contents := chatContents req.systemPrompt req.message media
    let call := ExternalCall.generateContent
      { model := model, config := configOptions, contents := contents }
    (.ok { text := jsOr env.genResponse.text "",
           sessionId := jsOrNull req.sessionId,
           usedTools := useTools,
           usedThinking := useThinking },
     calls ++ [call], st)

/-- Splits a character list at every `'/'`, mirroring JS
`String.prototype.split('/')` (no limit, empty fields kept). -/
def splitOnSlash : List Char → List (List Char)
  | [] => [[]]
  | c :: rest =>
    if c = '/' then [] :: splitOnSlash rest
    else
      match splitOnSlash rest with
      | [] => [[c]]
      | f :: fs => (c :: f) :: fs

/-- Embeds `mimeType.split('/')[1] || 'png'` from `saveImageToFile`: the
second slash-separated field of the MIME type, with `undefined` (fewer than
two fields) and the empty string both falling back to `png`. -/
def extensionOf (mimeType : String) : String :=
  match (splitOnSlash mimeType.toList).get? 1 with
  | none => "png"
  | some cs => if cs.isEmpty then "png" else String.mk cs

/-- The process-wide image output directory,
`path.join(process.cwd(), 'public', 'images')`, written relative to the
process working directory. -/
def imagesDirPath : String := "public/images"

/-- Embeds `GeminiService.saveImageToFile` (geminiService.js lines 174-191):
builds `generated_<timestamp>.<ext>`, writes the decoded bytes under the
images directory, and returns the root-relative URL path
`/images/<filename>`.  `Date.now()` is passed in as `timestamp`. -/
def saveImageToFile (base64Data mimeType : String) (timestamp : Nat) :
    String × ExternalCall :=
  let extension := extensionOf mimeType
  let filename := "generated_" ++ toString timestamp ++ "." ++ extension
  let filepath := imagesDirPath ++ "/" ++ filename
  ("/images/" ++ filename, .writeFile filepath (base64Decode base64Data))

/-- The `ImageRequest` shape: optional model, required prompt. -/
structure ImageRequest where
  model : Option String
  prompt : String
deriving DecidableEq, Repr

/-- An image entry of the file-materializing `generateImage`: URL plus MIME
type (no base64 data field). -/
structure FileImageResult where
  url : String
  mimeType : String
deriving DecidableEq, Repr

/-- Response of the effective `generateImage`. -/
structure ImageResponse where
  images : List FileImageResult
  text : String
  totalImages : Nat
deriving DecidableEq, Repr

/-- Embeds the part loop of the effective `generateImage` (geminiService.js
lines 397-415): parts are scanned in order; an inline-data part is saved to
file (consuming the next `Date.now()` observation) and contributes
`{url, mimeType}`; otherwise a truthy text part is appended to the text
accumulator. -/
def aggregateFileParts (times : Nat → Nat) :
    List RespPart → Nat → List FileImageResult × String × List ExternalCall
  | [], _ => ([], "", [])
  | p :: rest, k =>
    match p.inlineData with
    | some d =>
      let saved := saveImageToFile d.data d.mimeType (times k)
      let acc := aggregateFileParts times rest (k + 1)
      ({ url := saved.1, mimeType := d.mimeType } :: acc.1, acc.2.1, saved.2 :: acc.2.2)
    | none =>
      let acc := aggregateFileParts times rest k
      if jsTruthy p.text then (acc.1, (p.text.getD "") ++ acc.2.1, acc.2.2)
      else acc

/-- Embeds the effective `generateImage` (geminiService.js lines 362-425).
The source declares this method twice; the later, non-streaming,
file-materializing definition wins.  A response failing the candidates
guard yields the empty artifact, not an error. -/
def generateImage (st : ServiceState) (req : ImageRequest) (env : Env) :
    Except String ImageResponse × List ExternalCall × ServiceState :=
  let model := req.model.getD imageModelDefault
  let contents : List ContentTurn := [{ role := "user", parts := [JsPart.text req.prompt] }]
  let call := ExternalCall.generateContent
    { model := model, config := imageGenConfig, contents := contents }
  let ps := (firstCandidateParts env.genResponse).getD []
  let agg := aggregateFileParts env.times ps 0
  (.ok { images := agg.1, text := agg.2.1, totalImages := agg.1.length },
   call :: agg.2.2, st)

/-- An image entry of the buffer-returning presets: decoded buffer, MIME
type, and the base64 data kept "for flexibility". -/
structure PresetImageResult where
  buffer : List Nat
  mimeType : String
  data : String
deriving DecidableEq, Repr

/-- Response shape shared by `generateFigurine`, `generateHijab`,
`generateSdmTinggi` (and the spec-modelled `generateHitam`). -/
structure PresetResponse where
  images : List PresetImageResult
  text : String
  totalImages : Nat
  type : String
deriving DecidableEq, Repr

/-- Embeds the part loop shared verbatim by the buffer presets: inline-data
parts become `{buffer, mimeType, data}` entries in emission order, truthy
text parts concatenate in order. -/
def aggregateBufferParts : List RespPart → List PresetImageResult × String
  | [] => ([], "")
  | p :: rest =>
    let acc := aggregateBufferParts rest
    match p.inlineData with
    | some d =>
      ({ buffer := base64Decode d.data, mimeType := d.mimeType, data := d.data } :: acc.1,
       acc.2)
    | none =>
      if jsTruthy p.text then (acc.1, (p.text.getD "") ++ acc.2) else acc

/-- Embeds the method body shared verbatim (modulo prompt, type tag and
error label) by `generateFigurine`, `generateHijab` and `generateSdmTinggi`:
resolve the image, dispatch one non-streaming `generateContent` with the
fixed prompt preceding the image, aggregate the first candidate's parts into
buffers.  A resolution failure propagates through the catch as
`<errLabel><msg>` with no model call made. -/
def generatePresetImage (promptText typeTag errLabel : String)
    (st : ServiceState) (image : FileInput) (model : Option String) (env : Env) :
    Except String PresetResponse × List ExternalCall × ServiceState :=
  let modelName := model.getD imageModelDefault
  match resolveFileInput image env.fetch with
  | (.error msg, calls) => (.error (errLabel ++ msg), calls, st)
  | (.ok media, calls) =>
    let contents := presetContents promptText media
    let call := ExternalCall.generateContent
      { model := modelName, config := imageGenConfig, contents := contents }
    let ps := (firstCandidateParts env.genResponse).getD []
    let agg := aggregateBufferParts ps
    (.ok { images := agg.1, text := agg.2, totalImages := agg.1.length, type := typeTag },
     calls ++ [call], st)

/-- The figurine preset prompt literal (geminiService.js line 437). -/
def FIGURINE_PROMPT : String :=
  "Using the nano-banana model, a commercial 1/7 scale figurine of the character in the picture was created, depicting a realistic style and a realistic environment. The figurine is placed on a computer desk with a round transparent acrylic base. There is no text on the base. The computer screen shows the Zbrush modeling process of the figurine. Next to the computer screen is a BANDAI-style toy box with the original painting printed on it."

/-- The hijab preset prompt literal (geminiService.js line 522). -/
def HIJAB_PROMPT : String :=
  "Modify only the hair area by converting it into a neat, fully-covered white hijab in Indonesian Muslim style (100% no hair visible), while STRICTLY PRESERVING all other elements: do NOT alter skin color, clothing, facial features, pose, background, shadows, or any original details beyond the hair-to-hijab conversion-no additions/subtractions permitted."

/-- The sdmtinggi preset prompt literal (geminiService.js line 607). -/
def SDMTINGGI_PROMPT : String :=
  "Edit the uploaded image by keeping the exact same character and anything they are holding without changing their pose, position, or appearance, convert only the character and held objects into grayscale with all visual details preserved (not fully white), add a clean solid black rectangular censor bar that precisely follows the orientation of the character's eyes and covers only the eyes, remove the entire original background completely and replace it with a flat solid pure red color (#FF0000), and make sure no parts of the character or the items they are holding are removed or replaced."

/-- Embeds `GeminiService.generateFigurine` (geminiService.js 433-516). -/
def generateFigurine (st : ServiceState) (image : FileInput)
    (model : Option String) (env : Env) :
    Except String PresetResponse × List ExternalCall × ServiceState :=
  generatePresetImage FIGURINE_PROMPT "figurine" "Figurine generation failed: "
    st image model env

/-- Embeds `GeminiService.generateHijab` (geminiService.js 518-601). -/
def generateHijab (st : ServiceState) (image : FileInput)
    (model : Option String) (env : Env) :
    Except String PresetResponse × List ExternalCall × ServiceState :=
  generatePresetImage HIJAB_PROMPT "hijab" "Hijab generation failed: "
    st image model env

/-- Embeds `GeminiService.generateSdmTinggi` (geminiService.js 603-686). -/
def generateSdmTinggi (st : ServiceState) (image : FileInput)
    (model : Option String) (env : Env) :
    Except String PresetResponse × List ExternalCall × ServiceState :=
  generatePresetImage SDMTINGGI_PROMPT "sdmtinggi" "SdmTinggi generation failed: "
    st image model env

/-- Modelled from the spec: `generateHitam`, the service method for the
hitam preset, is not present in the provided source; only its caller
`hitamController.js` is.  The spec's preset table specifies hitam as a
single-required-media buffer preset identical in structure to figurine,
hijab and sdmtinggi, with a fixed preset prompt whose literal value the
spec leaves intentionally unspecified (an opaque externally-supplied
literal); this constant stands for that opaque literal. -/
def HITAM_PROMPT : String := "hitam preset fixed prompt (opaque literal per the spec)"

/-- Modelled from the spec: the hitam service method, mirroring the sibling
buffer presets with the opaque `HITAM_PROMPT`. -/
def generateHitam (st : ServiceState) (image : FileInput)
    (model : Option String) (env : Env) :
    Except String PresetResponse × List ExternalCall × ServiceState :=
  generatePresetImage HITAM_PROMPT "hitam" "Hitam generation failed: "
    st image model env

/-- What a route handler hands back to the HTTP layer: either raw image
bytes with the response headers the handler sets, or a
`{success: false, error}` JSON envelope. -/
inductive HttpResult where
  | buffer (body : List Nat) (contentType : String) (contentDisposition : String)
  | jsonError (error : String)
deriving DecidableEq, Repr

/-- Embeds the response block shared verbatim by the four buffer-preset
handlers (e.g. figurineController.js lines 13-34): a thrown service error
becomes `{success: false, error}`; a result with at least one image returns
the first image's buffer with its MIME type and a fixed attachment
filename; an empty image list becomes `{success: false, error: "No image
generated"}`. -/
def bufferPresetHandler (res : Except String PresetResponse)
    (filename : String) : HttpResult :=
  match res with
  | .error msg => .jsonError msg
  | .ok result =>
    match result.images with
    | [] => .jsonError "No image generated"
    | firstImage :: _ =>
      .buffer firstImage.buffer firstImage.mimeType
        ("attachment; filename=\"" ++ filename ++ "\"")

/-- Embeds `POST /figurine` (figurineController.js lines 7-48). -/
def figurinePost (image : FileInput) (st : ServiceState) (env : Env) :
    HttpResult × List ExternalCall × ServiceState :=
  let step := generateFigurine st image none env
  (bufferPresetHandler step.1 "figurine.png", step.2.1, step.2.2)

/-- Embeds `POST /hijabkan` (hijabController.js lines 7-48). -/
def hijabPost (image : FileInput) (st : ServiceState) (env : Env) :
    HttpResult × List ExternalCall × ServiceState :=
  let step := generateHijab st image none env
  (bufferPresetHandler step.1 "hijab.png", step.2.1, step.2.2)

/-- Embeds `POST /sdmtinggi` (sdmtinggiController.js lines 7-48). -/
def sdmtinggiPost (image : FileInput) (st : ServiceState) (env : Env) :
    HttpResult × List ExternalCall × ServiceState :=
  let step := generateSdmTinggi st image none env
  (bufferPresetHandler step.1 "sdmtinggi.png", step.2.1, step.2.2)

/-- Embeds `POST /hitamkan` (hitamController.js lines 7-48), delegating to
the spec-modelled `generateHitam`. -/
def hitamPost (image : FileInput) (st : ServiceState) (env : Env) :
    HttpResult × List ExternalCall × ServiceState :=
  let step := generateHitam st image none env
  (bufferPresetHandler step.1 "hitam.png", step.2.1, step.2.2)

/-- Embeds `GET /figurine` (figurineController.js lines 49-95): a falsy
`imageUrl` query parameter returns the validation error with no external
call made. -/
def figurineGet (imageUrl : Option String) (st : ServiceState) (env : Env) :
    HttpResult × List ExternalCall × ServiceState :=
  if jsTruthy imageUrl then
    let step := generateFigurine st (.url (imageUrl.getD "")) none env
    (bufferPresetHandler step.1 "figurine.png", step.2.1, step.2.2)
  else (.jsonError "imageUrl parameter is required", [], st)

/-- Embeds `GET /hijabkan` (hijabController.js lines 49-95). -/
def hijabGet (imageUrl : Option String) (st : ServiceState) (env : Env) :
    HttpResult × List ExternalCall × ServiceState :=
  if jsTruthy imageUrl then
    let step := generateHijab st (.url (imageUrl.getD "")) none env
    (bufferPresetHandler step.1 "hijab.png", step.2.1, step.2.2)
  else (.jsonError "imageUrl parameter is required", [], st)

/-- Embeds `GET /sdmtinggi` (sdmtinggiController.js lines 49-95). -/
def sdmtinggiGet (imageUrl : Option String) (st : ServiceState) (env : Env) :
    HttpResult × List ExternalCall × ServiceState :=
  if jsTruthy imageUrl then
    let step := generateSdmTinggi st (.url (imageUrl.getD "")) none env
    (bufferPresetHandler step.1 "sdmtinggi.png", step.2.1, step.2.2)
  else (.jsonError "imageUrl parameter is required", [], st)

/-- Embeds `GET /hitamkan` (hitamController.js lines 49-95). -/
def hitamGet (imageUrl : Option String) (st : ServiceState) (env : Env) :
    HttpResult × List ExternalCall × ServiceState :=
  if jsTruthy imageUrl then
    let step := generateHitam st (.url (imageUrl.getD "")) none env
    (bufferPresetHandler step.1 "hitam.png", step.2.1, step.2.2)
  else (.jsonError "imageUrl parameter is required", [], st)

/-- An image entry of the shape the buffer-returning `image/generate`
handler destructures: base64 `data` plus MIME type (the inline-policy
`ImageResult` of the spec). -/
structure InlineImageResult where
  data : String
  mimeType : String
deriving DecidableEq, Repr

/-- An artifact of inline-policy images, as the buffer-returning
`image/generate` handler reads it. -/
structure InlineImageResponse where
  images : List InlineImageResult
  text : String
  totalImages : Nat
deriving DecidableEq, Repr

/-- Embeds the buffer-returning variant of the `image/generate` route
handler (the `imageController` whose success path sets image headers and
returns `Buffer.from(firstImage.data, 'base64')`): with at least one image
only the first is decoded and returned; with none, the
`No image generated` envelope. -/
def imageGenerateBufferHandler (res : Except String InlineImageResponse) : HttpResult :=
  match res with
  | .error msg => .jsonError msg
  | .ok response =>
    match response.images with
    | [] => .jsonError "No image generated"
    | firstImage :: _ =>
      .buffer (base64Decode firstImage.data) firstImage.mimeType
        "attachment; filename=\"generated.png\""

/-- A fetch outcome for scenarios that perform no fetch. -/
def fetchUnused : FetchResult := .thrown "unused"

/-- An environment whose model response has no candidates and aggregate
text `hi`. -/
def envEmptyResponse : Env :=
  { fetch := fetchUnused,
    genResponse := { candidates := none, text := some "hi" },
    times := fun _ => 0 }

/-- A response part carrying one inline PNG image (base64 payload `QUJD`). -/
def imagePart : RespPart :=
  { text := none, inlineData := some { data := "QUJD", mimeType := "image/png" } }

/-- An environment whose model response carries exactly one inline image. -/
def envOneImage : Env :=
  { fetch := fetchUnused,
    genResponse :=
      { candidates := some [{ content := some { parts := some [imagePart] } }],
        text := none },
    times := fun _ => 0 }

/-- A minimal chat request: message only. -/
def chatReqPlain : ChatRequest :=
  { model := none, sessionId := none, systemPrompt := none, message := "hello",
    file := none, useTools := none, useThinking := none }

/-- A chat request whose sessionId is supplied but empty. -/
def chatReqEmptySession : ChatRequest := { chatReqPlain with sessionId := some "" }

/-- The first image aggregated by the buffer-preset loop is the first
inline-data part of the response, in emission order. -/
theorem aggregateBufferParts_head (ps : List RespPart) :
    ((aggregateBufferParts ps).1).head? =
      (firstInline ps).map
        (fun d =>
          ({ buffer := base64Decode d.data, mimeType := d.mimeType, data := d.data } :
            PresetImageResult)) := by
  induction ps with
  | nil => rfl
  | cons p rest ih =>
    cases hpd : p.inlineData with
    | some d => simp [aggregateBufferParts, firstInline, hpd]
    | none =>
      cases hjt : jsTruthy p.text <;>
        simp [aggregateBufferParts, firstInline, hpd, hjt, ih]

/-- Splitting a slash-free list yields that single field. -/
theorem splitOnSlash_no_slash (s : List Char) (h : ('/' : Char) ∉ s) :
    splitOnSlash s = [s] := by
  induction s with
  | nil => rfl
  | cons c rest ih =>
    have hc : ¬(c = '/') := by
      intro e
      exact h (by rw [e]; exact List.mem_cons_self '/' rest)
    have hr : ('/' : Char) ∉ rest := fun hm => h (List.mem_cons_of_mem _ hm)
    simp [splitOnSlash, hc, ih hr]

/-- Splitting at the first slash after a slash-free head. -/
theorem splitOnSlash_append (t rest : List Char) (h : ('/' : Char) ∉ t) :
    splitOnSlash (t ++ '/' :: rest) = t :: splitOnSlash rest := by
  induction t with
  | nil => simp [splitOnSlash]
  | cons c t ih =>
    have hc : ¬(c = '/') := by
      intro e
      exact h (by rw [e]; exact List.mem_cons_self '/' t)
    have ht : ('/' : Char) ∉ t := fun hm => h (List.mem_cons_of_mem _ hm)
    simp [splitOnSlash, hc, ih ht]

/-- The extension of a well-formed `type/subtype` MIME string is the
subtype. -/
theorem extensionOf_subtype (t s : List Char) (ht : ('/' : Char) ∉ t)
    (hs : ('/' : Char) ∉ s) (hne : s ≠ []) :
    extensionOf (String.mk (t ++ '/' :: s)) = String.mk s := by
  simp [extensionOf, String.toList, splitOnSlash_append t s ht,
    splitOnSlash_no_slash s hs, hne]

/-- A MIME string with no slash falls back to `png`. -/
theorem extensionOf_no_subtype (m : List Char) (h : ('/' : Char) ∉ m) :
    extensionOf (String.mk m) = "png" := by
  simp [extensionOf, String.toList, splitOnSlash_no_slash m h]

/-- A MIME string with an empty subtype falls back to `png`. -/
theorem extensionOf_empty_subtype (t : List Char) (h : ('/' : Char) ∉ t) :
    extensionOf (String.mk (t ++ ['/'])) = "png" := by
  have hsplit : splitOnSlash (t ++ '/' :: ([] : List Char)) = t :: splitOnSlash [] :=
    splitOnSlash_append t [] h
  simp [extensionOf, String.toList, hsplit, splitOnSlash]

/-- The preset service methods return the service state untouched. -/
theorem generatePresetImage_state (pt tag lbl : String) (st : ServiceState)
    (image : FileInput) (model : Option String) (env : Env) :
    (generatePresetImage pt tag lbl st image model env).2.2 = st := by
  unfold generatePresetImage
  rcases hres : resolveFileInput image env.fetch with ⟨res, calls⟩
  cases res <;> simp [hres]

/-- The chat method returns the service state untouched. -/
theorem generateChatResponse_state (st : ServiceState) (req : ChatRequest) (env : Env) :
    (generateChatResponse st req env).2.2 = st := by
  unfold generateChatResponse
  cases hf : req.file with
  | none => simp
  | some f =>
    rcases hres : resolveFileInput f env.fetch with ⟨res, calls⟩
    cases hft : fileInputTruthy f <;> cases res <;> simp [hft, hres]

/-- Full case analysis of the effective chat method: either media
resolution fails (the wrapped error, one fetch, no model call) or the call
succeeds with one trailing non-streaming dispatch, preceded by at most the
one fetch of a remote file. -/
theorem generateChatResponse_shape (st : ServiceState) (req : ChatRequest) (env : Env) :
    (∃ e u, generateChatResponse st req env =
        (.error ("Chat generation failed: " ++ e), [ExternalCall.fetchUrl u], st)) ∨
    (∃ media fetches,
        (fetches = [] ∨ ∃ u, fetches = [ExternalCall.fetchUrl u]) ∧
        generateChatResponse st req env =
          (.ok { text := jsOr env.genResponse.text "",
                 sessionId := jsOrNull req.sessionId,
                 usedTools := req.useTools.getD false,
                 usedThinking := req.useThinking.getD false },
           fetches ++ [ExternalCall.generateContent
             { model := req.model.getD chatModelDefault,
               config := chatConfigOptions (req.useTools.getD false)
                 (req.useThinking.getD false),
               contents := chatContents req.systemPrompt req.message media }], st)) := by
  unfold generateChatResponse
  cases hf : req.file with
  | none =>
    refine Or.inr ⟨none, [], Or.inl rfl, ?_⟩
    simp
  | some f =>
    cases hft : fileInputTruthy f with
    | false =>
      refine Or.inr ⟨none, [], Or.inl rfl, ?_⟩
      simp [hft]
    | true =>
      cases f with
      | url u =>
        cases hr : fetchFileFromUrl env.fetch with
        | error e =>
          refine Or.inl ⟨e, u, ?_⟩
          simp [hft, resolveFileInput, hr]
        | ok m =>
          refine Or.inr ⟨some m, [ExternalCall.fetchUrl u], Or.inr ⟨u, rfl⟩, ?_⟩
          simp [hft, resolveFileInput, hr]
      | blob bytes ty =>
        refine Or.inr ⟨some { data := base64Encode bytes, mimeType := ty }, [],
          Or.inl rfl, ?_⟩
        simp [hft, resolveFileInput]

/-- C7: in every assembled generation request, a present (truthy) system
prompt becomes the first turn, strictly preceding the user turn; within the
user turn the text part strictly precedes the media part; with no media the
user turn carries exactly the text part.  The same ordering holds for the
fixed-prompt preset turn. -/
theorem claim7_turn_ordering (s msg : String) (hs : s ≠ "")
    (media : Option InlineMedia) :
    chatContents (some s) msg media =
      { role := "user", parts := [JsPart.text s] } ::
        [{ role := "user", parts := chatParts msg media }] ∧
    chatContents none msg media = [{ role := "user", parts := chatParts msg media }] ∧
    (∀ m, chatParts msg (some m) = [JsPart.text msg, JsPart.inlineData m]) ∧
    chatParts msg none = [JsPart.text msg] ∧
    (∀ pt m, presetContents pt m =
      [{ role := "user", parts := [JsPart.text pt, JsPart.inlineData m] }]) := by
  refine ⟨?_, rfl, fun m => rfl, rfl, fun pt m => rfl⟩
  simp [chatContents, jsTruthy, bne_iff_ne, hs]

/-- Witness for C7 at a concrete system prompt, message and media. -/
theorem claim7_turn_ordering_witness :
    chatContents (some "sys") "hi" (some { data := "zz", mimeType := "image/png" }) =
      { role := "user", parts := [JsPart.text "sys"] } ::
        [{ role := "user",
           parts := chatParts "hi" (some { data := "zz", mimeType := "image/png" }) }] ∧
    chatContents none "hi" (some { data := "zz", mimeType := "image/png" }) =
      [{ role := "user",
         parts := chatParts "hi" (some { data := "zz", mimeType := "image/png" }) }] ∧
    (∀ m, chatParts "hi" (some m) = [JsPart.text "hi", JsPart.inlineData m]) ∧
    chatParts "hi" none = [JsPart.text "hi"] ∧
    (∀ pt m, presetContents pt m =
      [{ role := "user", parts := [JsPart.text pt, JsPart.inlineData m] }]) :=
  claim7_turn_ordering "sys" "hi" (by decide)
    (some { data := "zz", mimeType := "image/png" })

/-- C5: a non-ok remote response fails with a message containing the
upstream status text; a transport failure fails with a message containing
the transport error text. -/
theorem claim5_fetch_error_messages (statusText m : String) (bytes : List Nat)
    (ct : Option String) :
    (∃ pre, fetchFileFromUrl (.response false statusText bytes ct) =
      .error (pre ++ statusText)) ∧
    (∃ pre, fetchFileFromUrl (.thrown m) = .error (pre ++ m)) :=
  ⟨⟨"Error fetching file from URL: Failed to fetch file: ", rfl⟩,
   ⟨"Error fetching file from URL: ", rfl⟩⟩

/-- C10: every buffer-policy handler returns exactly the first image of a
non-empty artifact as the response body (with its MIME type and a fixed
attachment filename); the right-hand sides do not mention the remaining
images, which are therefore discarded. -/
theorem claim10_first_image_only (first : PresetImageResult)
    (rest : List PresetImageResult) (txt : String) (total : Nat) (tag fname : String)
    (ifirst : InlineImageResult) (irest : List InlineImageResult) (itxt : String)
    (itotal : Nat) :
    bufferPresetHandler
        (.ok { images := first :: rest, text := txt, totalImages := total, type := tag })
        fname =
      .buffer first.buffer first.mimeType ("attachment; filename=\"" ++ fname ++ "\"") ∧
    imageGenerateBufferHandler
        (.ok { images := ifirst :: irest, text := itxt, totalImages := itotal }) =
      .buffer (base64Decode ifirst.data) ifirst.mimeType
        "attachment; filename=\"generated.png\"" :=
  ⟨rfl, rfl⟩

/-- C4: each single-required-media GET handler (figurine, hijab, sdmtinggi,
hitam) with a falsy imageUrl returns the validation error, issues no
external call at all, and leaves the state untouched. -/
theorem claim4_fail_fast (q : Option String) (st : ServiceState) (env : Env)
    (h : jsTruthy q = false) :
    figurineGet q st env = (.jsonError "imageUrl parameter is required", [], st) ∧
    hijabGet q st env = (.jsonError "imageUrl parameter is required", [], st) ∧
    sdmtinggiGet q st env = (.jsonError "imageUrl parameter is required", [], st) ∧
    hitamGet q st env = (.jsonError "imageUrl parameter is required", [], st) := by
  simp [figurineGet, hijabGet, sdmtinggiGet, hitamGet, h]

/-- Witness for C4 at an absent imageUrl. -/
theorem claim4_fail_fast_witness :
    figurineGet none newServiceState envEmptyResponse =
      (.jsonError "imageUrl parameter is required", [], newServiceState) ∧
    hijabGet none newServiceState envEmptyResponse =
      (.jsonError "imageUrl parameter is required", [], newServiceState) ∧
    sdmtinggiGet none newServiceState envEmptyResponse =
      (.jsonError "imageUrl parameter is required", [], newServiceState) ∧
    hitamGet none newServiceState envEmptyResponse =
      (.jsonError "imageUrl parameter is required", [], newServiceState) :=
  claim4_fail_fast none newServiceState envEmptyResponse rfl

/-- C3 counterexample: an inline upload whose declared type is the empty
string resolves successfully to an InlineMedia with an empty MIME type, so
inline resolution does not always produce a non-empty MIME type. -/
theorem claim3_counterexample_inline_empty_mime :
    ∃ m, (resolveFileInput (FileInput.blob [104, 105] "") fetchUnused).1 = .ok m ∧
      m.mimeType = "" :=
  ⟨{ data := base64Encode [104, 105], mimeType := "" }, rfl, rfl⟩

/-- C3 amended: inline resolution never fails and passes the upload's
declared type through verbatim (so the MIME type is empty exactly when the
declared type is); successful remote resolution always has a non-empty MIME
type, substituting application/octet-stream when the content-type header is
missing or empty. -/
theorem claim3_amended_mime (bytes : List Nat) (ty statusText : String)
    (body : List Nat) (fr : FetchResult) :
    (resolveFileInput (.blob bytes ty) fr).1 =
      .ok { data := base64Encode bytes, mimeType := ty } ∧
    fetchFileFromUrl (.response true statusText body none) =
      .ok { data := base64Encode body, mimeType := "application/octet-stream" } ∧
    fetchFileFromUrl (.response true statusText body (some "")) =
      .ok { data := base64Encode body, mimeType := "application/octet-stream" } ∧
    (∀ ct m, fetchFileFromUrl (.response true statusText body ct) = .ok m →
      m.mimeType ≠ "") := by
  refine ⟨rfl, rfl, rfl, ?_⟩
  intro ct m h
  cases ct with
  | none =>
    simp [fetchFileFromUrl, jsOr] at h
    rw [← h]
    simp
  | some s =>
    by_cases hs : s = "" <;>
      simp [fetchFileFromUrl, jsOr, hs] at h <;> rw [← h] <;> simp
    exact hs

/-- Witness for C3 amended: the octet-stream substitution at a concrete
headerless response is non-empty. -/
theorem claim3_amended_mime_witness :
    ({ data := base64Encode [2], mimeType := "application/octet-stream" } :
      InlineMedia).mimeType ≠ "" :=
  (claim3_amended_mime [1] "image/png" "OK" [2] fetchUnused).2.2.2 none _ rfl

/-- C8: a file-policy materialization writes the decoded bytes into the
process-wide image output directory under `generated_<timestamp>.<ext>`,
where the extension is the MIME subtype (or `png` when the MIME type has no
usable subtype), and returns the root-relative `/images/<filename>` path. -/
theorem claim8_save_image_file (b64 : String) (ts : Nat) :
    (∀ t s : List Char, ('/' : Char) ∉ t → ('/' : Char) ∉ s → s ≠ [] →
      saveImageToFile b64 (String.mk (t ++ '/' :: s)) ts =
        ("/images/" ++ ("generated_" ++ toString ts ++ "." ++ String.mk s),
         ExternalCall.writeFile
           (imagesDirPath ++ "/" ++ ("generated_" ++ toString ts ++ "." ++ String.mk s))
           (base64Decode b64))) ∧
    (∀ m : List Char, ('/' : Char) ∉ m →
      saveImageToFile b64 (String.mk m) ts =
        ("/images/" ++ ("generated_" ++ toString ts ++ "." ++ "png"),
         ExternalCall.writeFile
           (imagesDirPath ++ "/" ++ ("generated_" ++ toString ts ++ "." ++ "png"))
           (base64Decode b64))) ∧
    (∀ t : List Char, ('/' : Char) ∉ t →
      saveImageToFile b64 (String.mk (t ++ ['/'])) ts =
        ("/images/" ++ ("generated_" ++ toString ts ++ "." ++ "png"),
         ExternalCall.writeFile
           (imagesDirPath ++ "/" ++ ("generated_" ++ toString ts ++ "." ++ "png"))
           (base64Decode b64))) := by
  refine ⟨fun t s ht hs hne => ?_, fun m h => ?_, fun t h => ?_⟩
  · simp [saveImageToFile, extensionOf_subtype t s ht hs hne]
  · simp [saveImageToFile, extensionOf_no_subtype m h]
  · simp [saveImageToFile, extensionOf_empty_subtype t h]

/-- Witness for C8 at MIME type image/jpeg and timestamp 42: the extension
is the subtype `jpeg`. -/
theorem claim8_save_image_file_witness :
    saveImageToFile "QUJD" (String.mk ("image".toList ++ '/' :: "jpeg".toList)) 42 =
      ("/images/" ++ ("generated_" ++ toString 42 ++ "." ++ String.mk "jpeg".toList),
       ExternalCall.writeFile
         (imagesDirPath ++ "/" ++
           ("generated_" ++ toString 42 ++ "." ++ String.mk "jpeg".toList))
         (base64Decode "QUJD")) :=
  (claim8_save_image_file "QUJD" 42).1 "image".toList "jpeg".toList
    (by decide) (by decide) (by decide)

/-- C6: a non-streaming response with no candidates, or whose first
candidate has no content parts, aggregates to the empty artifact without an
error, and a buffer-preset endpoint then reports the
`No image generated` business outcome rather than a thrown fault. -/
theorem claim6_empty_artifact (st : ServiceState) (env : Env) (model : Option String)
    (prompt : String) (bytes : List Nat) (ty : String)
    (h : env.genResponse.candidates = none ∨ env.genResponse.candidates = some [] ∨
      ∃ c cs, env.genResponse.candidates = some (c :: cs) ∧
        (c.content = none ∨
          ∃ cont, c.content = some cont ∧ (cont.parts = none ∨ cont.parts = some []))) :
    (generateImage st { model := model, prompt := prompt } env).1 =
      .ok { images := [], text := "", totalImages := 0 } ∧
    (sdmtinggiPost (.blob bytes ty) st env).1 = .jsonError "No image generated" := by
  have hp : (firstCandidateParts env.genResponse).getD [] = [] := by
    rcases h with h | h | ⟨c, cs, hc, h2⟩
    · simp [firstCandidateParts, h]
    · simp [firstCandidateParts, h]
    · rcases h2 with h2 | ⟨cont, hcont, h3⟩
      · simp [firstCandidateParts, hc, h2]
      · rcases h3 with h3 | h3 <;> simp [firstCandidateParts, hc, hcont, h3]
  constructor
  · simp [generateImage, hp, aggregateFileParts]
  · simp [sdmtinggiPost, generateSdmTinggi, generatePresetImage, resolveFileInput,
      hp, aggregateBufferParts, bufferPresetHandler]

/-- Witness for C6 at a response with no candidates. -/
theorem claim6_empty_artifact_witness :
    (generateImage newServiceState { model := none, prompt := "p" } envEmptyResponse).1 =
      .ok { images := [], text := "", totalImages := 0 } ∧
    (sdmtinggiPost (.blob [7] "image/png") newServiceState envEmptyResponse).1 =
      .jsonError "No image generated" :=
  claim6_empty_artifact newServiceState envEmptyResponse none "p" [7] "image/png"
    (Or.inl rfl)

/-- C1 (spec-modelled `generateHitam`): a valid single inline image given to
the hitam endpoint is resolved, dispatched as exactly one non-streaming
generation carrying the fixed hitam prompt before the image, and the first
generated image comes back as a raw buffer, like the sibling buffer
presets. -/
theorem claim1_hitam_buffer (st : ServiceState) (bytes : List Nat) (ty : String)
    (env : Env) (ps : List RespPart) (d : InlineMedia)
    (hps : firstCandidateParts env.genResponse = some ps)
    (hd : firstInline ps = some d) :
    hitamPost (FileInput.blob bytes ty) st env =
      (HttpResult.buffer (base64Decode d.data) d.mimeType
         "attachment; filename=\"hitam.png\"",
       [ExternalCall.generateContent
         { model := imageModelDefault, config := imageGenConfig,
           contents := presetContents HITAM_PROMPT
             { data := base64Encode bytes, mimeType := ty } }],
       st) := by
  have hagg := aggregateBufferParts_head ps
  rw [hd] at hagg
  simp only [Option.map_some'] at hagg
  cases himg : (aggregateBufferParts ps).1 with
  | nil => rw [himg] at hagg; simp at hagg
  | cons a tl =>
    rw [himg] at hagg
    simp only [List.head?_cons, Option.some_inj] at hagg
    subst hagg
    simp [hitamPost, generateHitam, generatePresetImage, resolveFileInput, hps,
      bufferPresetHandler, himg]

/-- Witness for C1 at a concrete image and a one-image model response. -/
theorem claim1_hitam_buffer_witness :
    hitamPost (FileInput.blob [0, 1, 2] "image/png") newServiceState envOneImage =
      (HttpResult.buffer (base64Decode "QUJD") "image/png"
         "attachment; filename=\"hitam.png\"",
       [ExternalCall.generateContent
         { model := imageModelDefault, config := imageGenConfig,
           contents := presetContents HITAM_PROMPT
             { data := base64Encode [0, 1, 2], mimeType := "image/png" } }],
       newServiceState) :=
  claim1_hitam_buffer newServiceState [0, 1, 2] "image/png" envOneImage [imagePart]
    { data := "QUJD", mimeType := "image/png" } rfl rfl

/-- C2 counterexample: the source defines `generateChatResponse` twice and
JS class semantics install the later, non-streaming definition, so a
concrete chat request dispatches exactly one `generateContent` call and no
streaming call at all — the chat pipeline is not invoked in streaming
mode. -/
theorem claim2_counterexample_chat_not_streaming :
    (generateChatResponse newServiceState chatReqPlain envEmptyResponse).2.1 =
      [ExternalCall.generateContent
        { model := chatModelDefault,
          config := chatConfigOptions false false,
          contents := [{ role := "user", parts := [JsPart.text "hello"] }] }] ∧
    ∀ c ∈ (generateChatResponse newServiceState chatReqPlain envEmptyResponse).2.1,
      isStreamCall c = false := by
  have h : (generateChatResponse newServiceState chatReqPlain envEmptyResponse).2.1 =
      [ExternalCall.generateContent
        { model := chatModelDefault,
          config := chatConfigOptions false false,
          contents := [{ role := "user", parts := [JsPart.text "hello"] }] }] := rfl
  refine ⟨h, ?_⟩
  intro c hc
  rw [h] at hc
  simp at hc
  rw [hc]
  rfl

/-- C2 amended: every chat request is dispatched in non-streaming mode (the
second, effective `generateChatResponse` definition): no streaming call is
ever issued, and a successful chat response's text is the response's
aggregate text field (empty when absent), produced by a single trailing
`generateContent` dispatch preceded only by the optional media fetch. -/
theorem claim2_amended_chat_non_streaming (st : ServiceState) (req : ChatRequest)
    (env : Env) :
    (∀ c ∈ (generateChatResponse st req env).2.1, isStreamCall c = false) ∧
    (∀ r, (generateChatResponse st req env).1 = .ok r →
      r.text = jsOr env.genResponse.text "" ∧
      ∃ fetches media,
        (generateChatResponse st req env).2.1 =
          fetches ++ [ExternalCall.generateContent
            { model := req.model.getD chatModelDefault,
              config := chatConfigOptions (req.useTools.getD false)
                (req.useThinking.getD false),
              contents := chatContents req.systemPrompt req.message media }] ∧
        ∀ c ∈ fetches, isStreamCall c = false) := by
  rcases generateChatResponse_shape st req env with ⟨e, u, hEq⟩ |
    ⟨media, fetches, hf, hEq⟩
  · constructor
    · intro c hc
      rw [hEq] at hc
      simp at hc
      rw [hc]
      rfl
    · intro r hr
      rw [hEq] at hr
      simp at hr
  · have hfetch : ∀ c ∈ fetches, isStreamCall c = false := by
      intro c hc
      rcases hf with rfl | ⟨u, rfl⟩
      · simp at hc
      · simp at hc
        rw [hc]
        rfl
    constructor
    · intro c hc
      rw [hEq] at hc
      simp at hc
      rcases hc with hc | hc
      · exact hfetch c hc
      · rw [hc]
        rfl
    · intro r hr
      rw [hEq] at hr
      simp at hr
      refine ⟨by rw [← hr], fetches, media, by rw [hEq], hfetch⟩

/-- Witness for C2 amended at a concrete request, discharging the success
hypothesis. -/
theorem claim2_amended_chat_non_streaming_witness :
    ({ text := "hi", sessionId := none, usedTools := false, usedThinking := false } :
        ChatResponse).text = jsOr envEmptyResponse.genResponse.text "" ∧
    ∃ fetches media,
      (generateChatResponse newServiceState chatReqPlain envEmptyResponse).2.1 =
        fetches ++ [ExternalCall.generateContent
          { model := chatReqPlain.model.getD chatModelDefault,
            config := chatConfigOptions (chatReqPlain.useTools.getD false)
              (chatReqPlain.useThinking.getD false),
            contents := chatContents chatReqPlain.systemPrompt chatReqPlain.message
              media }] ∧
      ∀ c ∈ fetches, isStreamCall c = false :=
  (claim2_amended_chat_non_streaming newServiceState chatReqPlain envEmptyResponse).2
    { text := "hi", sessionId := none, usedTools := false, usedThinking := false } rfl

/-- C9 counterexample: a chat request that supplies the empty string as its
session identifier is echoed back `null`, not the supplied identifier, so
the echo is not a pure pass-through of every present sessionId. -/
theorem claim9_counterexample_empty_session :
    ∃ r, (generateChatResponse newServiceState chatReqEmptySession envEmptyResponse).1 =
        .ok r ∧
      chatReqEmptySession.sessionId = some "" ∧
      r.sessionId ≠ chatReqEmptySession.sessionId := by
  refine ⟨{ text := "hi", sessionId := none, usedTools := false, usedThinking := false },
    rfl, rfl, ?_⟩
  simp [chatReqEmptySession, chatReqPlain]

/-- C9 amended: the session identifier is echoed as the request's sessionId
when that is a non-empty string and as null when it is absent or empty
(`sessionId || null`); no pipeline operation reads or writes the
process-wide session registry — every service method returns its state, and
hence the sessions map, unchanged. -/
theorem claim9_amended_session_passthrough (st : ServiceState) (req : ChatRequest)
    (env : Env) :
    (generateChatResponse st req env).2.2 = st ∧
    (∀ r, (generateChatResponse st req env).1 = .ok r →
      ((req.sessionId = none → r.sessionId = none) ∧
       (req.sessionId = some "" → r.sessionId = none) ∧
       (∀ s, req.sessionId = some s → s ≠ "" → r.sessionId = some s))) ∧
    (∀ irq, (generateImage st irq env).2.2 = st) ∧
    (∀ img m, (generateFigurine st img m env).2.2 = st) ∧
    (∀ img m, (generateHijab st img m env).2.2 = st) ∧
    (∀ img m, (generateSdmTinggi st img m env).2.2 = st) ∧
    (∀ img m, (generateHitam st img m env).2.2 = st) := by
  refine ⟨generateChatResponse_state st req env, ?_,
    fun irq => rfl,
    fun img m => generatePresetImage_state _ _ _ st img m env,
    fun img m => generatePresetImage_state _ _ _ st img m env,
    fun img m => generatePresetImage_state _ _ _ st img m env,
    fun img m => generatePresetImage_state _ _ _ st img m env⟩
  intro r hr
  have hsid : r.sessionId = jsOrNull req.sessionId := by
    rcases generateChatResponse_shape st req env with ⟨e, u, hEq⟩ |
      ⟨media, fetches, hf, hEq⟩
    · rw [hEq] at hr
      simp at hr
    · rw [hEq] at hr
      simp at hr
      rw [← hr]
  refine ⟨fun h0 => ?_, fun h0 => ?_, fun s h0 hs => ?_⟩
  · rw [hsid, h0]
    rfl
  · rw [hsid, h0]
    rfl
  · rw [hsid, h0]
    simp [jsOrNull, hs]

/-- Witness for C9 amended at a concrete request, discharging the success
hypothesis and the non-empty sessionId case. -/
theorem claim9_amended_session_passthrough_witness :
    (generateChatResponse newServiceState chatReqPlain envEmptyResponse).2.2 =
      newServiceState ∧
    ({ text := "hi", sessionId := none, usedTools := false, usedThinking := false } :
      ChatResponse).sessionId = none :=
  ⟨(claim9_amended_session_passthrough newServiceState chatReqPlain envEmptyResponse).1,
   ((claim9_amended_session_passthrough newServiceState chatReqPlain
      envEmptyResponse).2.1
     { text := "hi", sessionId := none, usedTools := false, usedThinking := false }
     rfl).1 rfl⟩

end GeminiWrapper
